import Mathlib

/-!
Verification of the safety / rate-limiting subsystem of the jdgrowthscraper
repository. The Python classes `SafetyManager` and `ErrorHandler`
(src/safety.py) and the orchestration loop of `JDGrowthScraper` (main.py) are
embedded shallowly: mutable object state becomes an explicit `SafetyState`
value, wall-clock instants (Python `time.time()` floats) become exact
rationals, calendar dates (compared only for equality) become `Nat`, and the
persisted JSON document becomes the `SavedData` record.
-/

namespace JDGrowth

/-- The four safety limits held as attributes on `SafetyManager`
(`MAX_COMMENTS_PER_DAY = 50`, `MAX_COMMENTS_PER_HOUR = 10`,
`MAX_CONSECUTIVE_ERRORS = 5`, `MIN_DELAY_BETWEEN_COMMENTS = 30`). -/
structure Limits where
  maxCommentsPerDay : Nat
  maxCommentsPerHour : Nat
  maxConsecutiveErrors : Nat
  minDelayBetweenComments : ℚ
deriving DecidableEq

/-- The limit values hard-coded in `SafetyManager.__init__`. -/
def defaultLimits : Limits := ⟨50, 10, 5, 30⟩

/-- The mutable counters of a `SafetyManager` instance:
`comments_today`, `last_reset_date`, `commented_posts`, `error_count`,
`hourly_comments` and `last_comment_time`. -/
structure SafetyState where
  comments_today : Nat
  last_reset_date : Nat
  commented_posts : Finset String
  error_count : Nat
  hourly_comments : List ℚ
  last_comment_time : Option ℚ
deriving DecidableEq

/-- The JSON document written by `SafetyManager._save_safety_data`: the keys
`comments_today`, `last_reset_date`, `commented_posts` and `last_updated`
(the wall clock at the moment of saving). -/
structure SavedData where
  comments_today : Nat
  last_reset_date : Nat
  commented_posts : Finset String
  last_updated : ℚ
deriving DecidableEq

/-- `_save_safety_data`: the document persisted from state `s` at instant
`now` (`last_updated = str(datetime.now())`). -/
def saveSafetyData (now : ℚ) (s : SafetyState) : SavedData :=
  ⟨s.comments_today, s.last_reset_date, s.commented_posts, now⟩

/-- `SafetyManager.__init__` after `_load_safety_data`: `comments_today`,
`last_reset_date` and `commented_posts` come from the saved document (with
defaults `0`, today, `[]` when there is none), while `error_count`,
`hourly_comments` and `last_comment_time` always start at `0`, `[]`, `None`. -/
def initSafetyState (saved : Option SavedData) (today : Nat) : SafetyState :=
  match saved with
  | some d =>
      ⟨d.comments_today, d.last_reset_date, d.commented_posts, 0, [], none⟩
  | none => ⟨0, today, ∅, 0, [], none⟩

/-- `reset_daily_counters_if_needed`: when `today` differs from
`last_reset_date` the daily counter and the error counter go to zero, the
reset date is updated and the state is persisted (second component);
otherwise nothing happens and nothing is written. -/
def resetDailyCountersIfNeeded (now : ℚ) (today : Nat) (s : SafetyState) :
    SafetyState × Option SavedData :=
  if s.last_reset_date ≠ today then
    let s1 : SafetyState :=
      { s with comments_today := 0, last_reset_date := today, error_count := 0 }
    (s1, some (saveSafetyData now s1))
  else (s, none)

/-- `_cleanup_hourly_comments`: keep only the timestamps `t` with
`t > now - 3600`. -/
def cleanupHourly (now : ℚ) (s : SafetyState) : SafetyState :=
  { s with hourly_comments := s.hourly_comments.filter (fun t => now - 3600 < t) }

/-- The reason strings returned by `can_comment`, as an enumeration. -/
inductive Reason
  | alreadyDone
  | dailyLimit
  | hourlyLimit
  | tooSoon
  | tooManyErrors
  | safe
deriving DecidableEq

/-- `can_comment`: after the daily reset, the five checks in source order —
dedup set, daily limit, hourly limit (after pruning the hourly window),
minimum spacing since the last comment, consecutive-error cap. Returns the
state as mutated by the reset and the pruning together with the verdict.
The guard `if self.last_comment_time:` tests for `None` (the stored value is
a `time.time()` instant, in particular nonzero), so it becomes a match on
the option. -/
def canComment (L : Limits) (now : ℚ) (today : Nat) (s : SafetyState)
    (postId : String) : SafetyState × Bool × Reason :=
  let s0 := (resetDailyCountersIfNeeded now today s).1
  if postId ∈ s0.commented_posts then (s0, false, .alreadyDone)
  else if L.maxCommentsPerDay ≤ s0.comments_today then (s0, false, .dailyLimit)
  else
    let s1 := cleanupHourly now s0
    if L.maxCommentsPerHour ≤ s1.hourly_comments.length then
      (s1, false, .hourlyLimit)
    else
      let tooSoonB : Bool :=
        match s1.last_comment_time with
        | some t => decide (now - t < L.minDelayBetweenComments)
        | none => false
      if tooSoonB then (s1, false, .tooSoon)
      else if L.maxConsecutiveErrors ≤ s1.error_count then
        (s1, false, .tooManyErrors)
      else (s1, true, .safe)

/-- `record_comment`: on success bump the daily counter, add the post to the
dedup set, append `now` to the hourly window, remember `now` as the last
comment time and clear the error counter; on failure only bump the error
counter. Either way the resulting state is persisted (second component). -/
def recordComment (now : ℚ) (postId : String) (success : Bool)
    (s : SafetyState) : SafetyState × SavedData :=
  let s1 :=
    if success then
      { s with
        comments_today := s.comments_today + 1,
        commented_posts := insert postId s.commented_posts,
        hourly_comments := s.hourly_comments ++ [now],
        last_comment_time := some now,
        error_count := 0 }
    else { s with error_count := s.error_count + 1 }
  (s1, saveSafetyData now s1)

/-- The multiplier computed by `get_recommended_delay`, exactly as the source
branches: `if recent > 5` gives 1.5, `elif recent > 8` gives 2.0, `else` 1.0.
The middle branch is unreachable because every count above 8 is above 5. -/
def delayMultiplier (recent : Nat) : ℚ :=
  if 5 < recent then 3/2
  else if 8 < recent then 2
  else 1

/-- `get_recommended_delay`: base delay times the activity multiplier times
the random jitter drawn from `random.uniform(0.8, 1.2)`, the jitter passed
here as the explicit argument `variation`. -/
def getRecommendedDelay (base variation : ℚ) (s : SafetyState) : ℚ :=
  base * delayMultiplier s.hourly_comments.length * variation

/-- The multiplier as the specification describes it (highest threshold
first): above 8 events gives 2.0, above 5 gives 1.5, else 1.0. Stated for
comparison with `delayMultiplier`, the translation of the source. -/
def specDelayMultiplier (recent : Nat) : ℚ :=
  if 8 < recent then 2
  else if 5 < recent then 3/2
  else 1

/-- The reasons returned by `should_take_break`. -/
inductive BreakReason
  | approachingDaily
  | highHourly
  | consecutiveErrors
  | noBreak
deriving DecidableEq

/-- `should_take_break`: break when the daily counter has reached 80% of the
daily cap, or the hourly window holds at least 80% of the hourly cap, or
there are at least 3 consecutive errors. -/
def shouldTakeBreak (L : Limits) (s : SafetyState) : Bool × BreakReason :=
  if (L.maxCommentsPerDay : ℚ) * (4/5) ≤ (s.comments_today : ℚ) then
    (true, .approachingDaily)
  else if (L.maxCommentsPerHour : ℚ) * (4/5) ≤ (s.hourly_comments.length : ℚ) then
    (true, .highHourly)
  else if 3 ≤ s.error_count then (true, .consecutiveErrors)
  else (false, .noBreak)

/-- The fatal substrings of `ErrorHandler.handle_error` (`critical_errors`). -/
def criticalErrors : List String :=
  ["invalid session", "account suspended", "rate limit exceeded", "blocked",
   "login required"]

/-- `ErrorHandler.retry_delays`, the progressive backoff table. -/
def retryDelays : List Nat := [5, 10, 20, 30, 60]

/-- Python's prefix test on character lists: `leadsList n h` holds when `n`
is an initial segment of `h`. -/
def leadsList : List Char → List Char → Bool
  | [], _ => true
  | _ :: _, [] => false
  | a :: as, b :: bs => a == b && leadsList as bs

/-- Python's `needle in hay` substring test on character lists. -/
def containsSub (needle : List Char) : List Char → Bool
  | [] => needle.isEmpty
  | c :: rest => leadsList needle (c :: rest) || containsSub needle rest

/-- `str(error).lower()` as a character list. -/
def lowerChars (s : String) : List Char := s.toList.map Char.toLower

/-- The fatal test of `handle_error`: some entry of `critical_errors` occurs
in the lowercased error message. -/
def isCriticalError (errorMsg : String) : Bool :=
  criticalErrors.any (fun c => containsSub c.toList (lowerChars errorMsg))

/-- `ErrorHandler.handle_error` for a given message and 1-based attempt
number: `(should_retry, delay slept)`. A critical message returns no-retry
with no sleep; otherwise an attempt within the backoff table sleeps the
table entry and retries, and an attempt past the table gives up. -/
def handleError (errorMsg : String) (attempt : Nat) : Bool × Option Nat :=
  if isCriticalError errorMsg then (false, none)
  else if attempt ≤ retryDelays.length then
    (true, some (retryDelays.getD (attempt - 1) 0))
  else (false, none)

/-- What one call to `comment_bot.comment_on_posts([post])` does inside
`_attempt_comment_with_retry`: either it returns normally and the wrapper
reads off whether a comment succeeded, or it raises an exception with the
given message. -/
inductive AttemptResult
  | returns (success : Bool)
  | raises (msg : String)
deriving DecidableEq

/-- The loop body of `_attempt_comment_with_retry`: `f` gives the behaviour
of each 1-based attempt, `attempt` is the current attempt number and the
second argument is the number of attempts still allowed. Returns the final
success value, the number of attempts actually made, and the list of
`(message, attempt)` pairs passed to `ErrorHandler.handle_error`. -/
def attemptLoop (f : Nat → AttemptResult) : Nat → Nat → Bool × Nat × List (String × Nat)
  | _, 0 => (false, 0, [])
  | attempt, r + 1 =>
    match f attempt with
    | .returns b => (b, 1, [])
    | .raises msg =>
      if (handleError msg attempt).1 then
        let rest := attemptLoop f (attempt + 1) r
        (rest.1, rest.2.1 + 1, (msg, attempt) :: rest.2.2)
      else (false, 1, [(msg, attempt)])

/-- `_attempt_comment_with_retry` with its default `max_attempts = 3`. -/
def attemptCommentWithRetry (f : Nat → AttemptResult) :
    Bool × Nat × List (String × Nat) :=
  attemptLoop f 1 3

/-- The behaviour of one post inside `_comment_on_posts_safely`: the retry
wrapper reports success, reports failure, or the per-post processing raises
an unexpected exception that reaches the per-post `except` handler. -/
inductive PostOutcome
  | succeeds
  | fails
  | raisesErr
deriving DecidableEq

/-- The session tallies kept by `_comment_on_posts_safely`. -/
structure SessionResults where
  total_posts : Nat
  successful_comments : Nat
  failed_comments : Nat
  skipped_posts : Nat
  safety_stops : Nat
deriving DecidableEq

/-- The loop of `_comment_on_posts_safely` over the remaining post ids.
`timeAt i` is the wall clock while post `i` is processed (the source reads
`time.time()` during one iteration; the drift within an iteration is
abstracted away), `jitter i` the `random.uniform(0.8, 1.2)` draw for the
wait after post `i`, `outcome` the behaviour of each post, and the trailing
arguments the safety state, the tallies so far and the trace of sleeps.
A post whose processing raises is counted failed, a 5-second cool-down is
slept and the loop continues; a denied post is counted skipped; otherwise
the attempt is recorded, the tallies updated, and either the session stops
with a safety stop or the recommended delay is slept before the next post. -/
def commentOnPostsSafely (L : Limits) (base : ℚ) (timeAt jitter : Nat → ℚ)
    (today : Nat) (outcome : String → PostOutcome) :
    Nat → List String → SafetyState → SessionResults → List ℚ →
    SafetyState × SessionResults × List ℚ
  | _, [], s, r, tr => (s, r, tr)
  | i, post :: rest, s, r, tr =>
    match outcome post with
    | .raisesErr =>
      commentOnPostsSafely L base timeAt jitter today outcome (i + 1) rest s
        { r with failed_comments := r.failed_comments + 1 } (tr ++ [5])
    | o =>
      let now := timeAt i
      let chk := canComment L now today s post
      if chk.2.1 then
        let success := decide (o = .succeeds)
        let s2 := (recordComment now post success chk.1).1
        let r2 :=
          if success then
            { r with successful_comments := r.successful_comments + 1 }
          else { r with failed_comments := r.failed_comments + 1 }
        if (shouldTakeBreak L s2).1 then
          (s2, { r2 with safety_stops := r2.safety_stops + 1 }, tr)
        else
          commentOnPostsSafely L base timeAt jitter today outcome (i + 1) rest
            s2 r2 (tr ++ [getRecommendedDelay base (jitter i) s2])
      else
        commentOnPostsSafely L base timeAt jitter today outcome (i + 1) rest
          chk.1 { r with skipped_posts := r.skipped_posts + 1 } tr

/-- `_comment_on_posts_safely` started on a post list with zeroed tallies. -/
def runCommentSession (L : Limits) (base : ℚ) (timeAt jitter : Nat → ℚ)
    (today : Nat) (outcome : String → PostOutcome) (posts : List String)
    (s : SafetyState) : SafetyState × SessionResults × List ℚ :=
  commentOnPostsSafely L base timeAt jitter today outcome 0 posts s
    ⟨posts.length, 0, 0, 0, 0⟩ []

/-- A `SafetyManager` with fresh counters on day `today`. -/
def freshState (today : Nat) : SafetyState := ⟨0, today, ∅, 0, [], none⟩

/-- Fold of successful `record_comment` calls, each pair giving the post id
and the instant of the call. -/
def recordSuccessRun (s : SafetyState) (calls : List (String × ℚ)) :
    SafetyState :=
  calls.foldl (fun st c => (recordComment c.2 c.1 true st).1) s

/-- The state `can_comment` sees after the opening call to
`reset_daily_counters_if_needed`. -/
def afterReset (now : ℚ) (today : Nat) (s : SafetyState) : SafetyState :=
  (resetDailyCountersIfNeeded now today s).1

/-- The size of the hourly window once pruned at instant `now`, the count
the hourly-limit check compares against `MAX_COMMENTS_PER_HOUR`. -/
def prunedHourlyCount (now : ℚ) (s : SafetyState) : Nat :=
  (cleanupHourly now s).hourly_comments.length

/-! ## Helper lemmas -/

theorem recordSuccessRun_comments_today (calls : List (String × ℚ)) :
    ∀ s : SafetyState,
      (recordSuccessRun s calls).comments_today
        = s.comments_today + calls.length := by
  induction calls with
  | nil => intro s; rfl
  | cons c cs ih =>
    intro s
    show (recordSuccessRun ((recordComment c.2 c.1 true s).1) cs).comments_today = _
    rw [ih]
    simp [recordComment]
    omega

theorem attemptLoop_attempts_le (f : Nat → AttemptResult) :
    ∀ r a, (attemptLoop f a r).2.1 ≤ r := by
  intro r
  induction r with
  | zero => intro a; simp [attemptLoop]
  | succ n ih =>
    intro a
    simp only [attemptLoop]
    cases f a with
    | returns b => simp
    | raises msg =>
      by_cases h : (handleError msg a).1
      · simpa [h] using Nat.succ_le_succ (ih (a + 1))
      · simp [h]


theorem afterReset_def (now : ℚ) (today : Nat) (s : SafetyState) :
    (resetDailyCountersIfNeeded now today s).1 = afterReset now today s := rfl

theorem prunedHourlyCount_def (now : ℚ) (s : SafetyState) :
    (cleanupHourly now s).hourly_comments.length = prunedHourlyCount now s := rfl

theorem afterReset_commented_posts (now : ℚ) (today : Nat) (s : SafetyState) :
    (afterReset now today s).commented_posts = s.commented_posts := by
  unfold afterReset resetDailyCountersIfNeeded
  split <;> rfl

theorem afterReset_hourly_comments (now : ℚ) (today : Nat) (s : SafetyState) :
    (afterReset now today s).hourly_comments = s.hourly_comments := by
  unfold afterReset resetDailyCountersIfNeeded
  split <;> rfl

theorem afterReset_last_comment_time (now : ℚ) (today : Nat) (s : SafetyState) :
    (afterReset now today s).last_comment_time = s.last_comment_time := by
  unfold afterReset resetDailyCountersIfNeeded
  split <;> rfl

theorem cleanupHourly_afterReset_hourly (now : ℚ) (today : Nat) (s : SafetyState) :
    (cleanupHourly now (afterReset now today s)).hourly_comments
      = (cleanupHourly now s).hourly_comments := by
  simp [cleanupHourly, afterReset_hourly_comments]

theorem prunedHourlyCount_afterReset (now : ℚ) (today : Nat) (s : SafetyState) :
    prunedHourlyCount now (afterReset now today s) = prunedHourlyCount now s := by
  unfold prunedHourlyCount
  rw [cleanupHourly_afterReset_hourly]

theorem canComment_alreadyDone (L : Limits) (now : ℚ) (today : Nat)
    (s : SafetyState) (pid : String)
    (h : pid ∈ (afterReset now today s).commented_posts) :
    canComment L now today s pid = (afterReset now today s, false, .alreadyDone) := by
  simp only [canComment, afterReset_def]
  rw [if_pos h]

theorem canComment_dailyLimit (L : Limits) (now : ℚ) (today : Nat)
    (s : SafetyState) (pid : String)
    (h1 : pid ∉ (afterReset now today s).commented_posts)
    (h2 : L.maxCommentsPerDay ≤ (afterReset now today s).comments_today) :
    canComment L now today s pid = (afterReset now today s, false, .dailyLimit) := by
  simp only [canComment, afterReset_def]
  rw [if_neg h1, if_pos h2]

theorem canComment_hourlyLimit (L : Limits) (now : ℚ) (today : Nat)
    (s : SafetyState) (pid : String)
    (h1 : pid ∉ (afterReset now today s).commented_posts)
    (h2 : (afterReset now today s).comments_today < L.maxCommentsPerDay)
    (h3 : L.maxCommentsPerHour ≤ prunedHourlyCount now s) :
    canComment L now today s pid
      = (cleanupHourly now (afterReset now today s), false, .hourlyLimit) := by
  simp only [canComment, afterReset_def]
  rw [if_neg h1, if_neg (Nat.not_le.mpr h2),
    if_pos (by rw [prunedHourlyCount_def, prunedHourlyCount_afterReset]; exact h3)]


theorem cleanupHourly_last_comment_time (now : ℚ) (s : SafetyState) :
    (cleanupHourly now s).last_comment_time = s.last_comment_time := rfl

theorem cleanupHourly_error_count (now : ℚ) (s : SafetyState) :
    (cleanupHourly now s).error_count = s.error_count := rfl

theorem canComment_tooSoon (L : Limits) (now : ℚ) (today : Nat)
    (s : SafetyState) (pid : String) (t : ℚ)
    (h1 : pid ∉ (afterReset now today s).commented_posts)
    (h2 : (afterReset now today s).comments_today < L.maxCommentsPerDay)
    (h3 : prunedHourlyCount now s < L.maxCommentsPerHour)
    (ht : s.last_comment_time = some t)
    (h4 : now - t < L.minDelayBetweenComments) :
    canComment L now today s pid
      = (cleanupHourly now (afterReset now today s), false, .tooSoon) := by
  have hm : (cleanupHourly now (afterReset now today s)).last_comment_time = some t := by
    rw [cleanupHourly_last_comment_time, afterReset_last_comment_time, ht]
  simp only [canComment, afterReset_def]
  rw [if_neg h1, if_neg (Nat.not_le.mpr h2),
    if_neg (by rw [prunedHourlyCount_def, prunedHourlyCount_afterReset]; exact Nat.not_le.mpr h3)]
  simp only [hm]
  rw [if_pos (by simp [h4])]

theorem canComment_tooManyErrors (L : Limits) (now : ℚ) (today : Nat)
    (s : SafetyState) (pid : String)
    (h1 : pid ∉ (afterReset now today s).commented_posts)
    (h2 : (afterReset now today s).comments_today < L.maxCommentsPerDay)
    (h3 : prunedHourlyCount now s < L.maxCommentsPerHour)
    (hts : ∀ t, s.last_comment_time = some t → L.minDelayBetweenComments ≤ now - t)
    (h5 : L.maxConsecutiveErrors ≤ (afterReset now today s).error_count) :
    canComment L now today s pid
      = (cleanupHourly now (afterReset now today s), false, .tooManyErrors) := by
  simp only [canComment, afterReset_def]
  rw [if_neg h1, if_neg (Nat.not_le.mpr h2),
    if_neg (by rw [prunedHourlyCount_def, prunedHourlyCount_afterReset]; exact Nat.not_le.mpr h3)]
  cases hmt : s.last_comment_time with
  | none =>
    have hm : (cleanupHourly now (afterReset now today s)).last_comment_time = none := by
      rw [cleanupHourly_last_comment_time, afterReset_last_comment_time, hmt]
    simp only [hm]
    rw [if_neg (by simp)]
    rw [if_pos (by rw [cleanupHourly_error_count]; exact h5)]
  | some t =>
    have hm : (cleanupHourly now (afterReset now today s)).last_comment_time = some t := by
      rw [cleanupHourly_last_comment_time, afterReset_last_comment_time, hmt]
    simp only [hm]
    rw [if_neg (by simp [not_lt.mpr (hts t hmt)])]
    rw [if_pos (by rw [cleanupHourly_error_count]; exact h5)]

theorem canComment_safe (L : Limits) (now : ℚ) (today : Nat)
    (s : SafetyState) (pid : String)
    (h1 : pid ∉ (afterReset now today s).commented_posts)
    (h2 : (afterReset now today s).comments_today < L.maxCommentsPerDay)
    (h3 : prunedHourlyCount now s < L.maxCommentsPerHour)
    (hts : ∀ t, s.last_comment_time = some t → L.minDelayBetweenComments ≤ now - t)
    (h5 : (afterReset now today s).error_count < L.maxConsecutiveErrors) :
    canComment L now today s pid
      = (cleanupHourly now (afterReset now today s), true, .safe) := by
  simp only [canComment, afterReset_def]
  rw [if_neg h1, if_neg (Nat.not_le.mpr h2),
    if_neg (by rw [prunedHourlyCount_def, prunedHourlyCount_afterReset]; exact Nat.not_le.mpr h3)]
  cases hmt : s.last_comment_time with
  | none =>
    have hm : (cleanupHourly now (afterReset now today s)).last_comment_time = none := by
      rw [cleanupHourly_last_comment_time, afterReset_last_comment_time, hmt]
    simp only [hm]
    rw [if_neg (by simp)]
    rw [if_neg (by rw [cleanupHourly_error_count]; exact Nat.not_le.mpr h5)]
  | some t =>
    have hm : (cleanupHourly now (afterReset now today s)).last_comment_time = some t := by
      rw [cleanupHourly_last_comment_time, afterReset_last_comment_time, hmt]
    simp only [hm]
    rw [if_neg (by simp [not_lt.mpr (hts t hmt)])]
    rw [if_neg (by rw [cleanupHourly_error_count]; exact Nat.not_le.mpr h5)]


theorem afterReset_eq_self (now : ℚ) (today : Nat) (s : SafetyState)
    (h : s.last_reset_date = today) : afterReset now today s = s := by
  unfold afterReset resetDailyCountersIfNeeded
  simp [h]

theorem afterReset_of_ne (now : ℚ) (today : Nat) (s : SafetyState)
    (h : s.last_reset_date ≠ today) :
    afterReset now today s =
      { s with comments_today := 0, last_reset_date := today,
               error_count := 0 } := by
  unfold afterReset resetDailyCountersIfNeeded
  simp [h]

theorem afterReset_last_reset_date (now : ℚ) (today : Nat) (s : SafetyState) :
    (afterReset now today s).last_reset_date = today := by
  by_cases h : s.last_reset_date = today
  · rw [afterReset_eq_self now today s h]; exact h
  · rw [afterReset_of_ne now today s h]

theorem afterReset_error_count_le (now : ℚ) (today : Nat) (s : SafetyState) :
    (afterReset now today s).error_count ≤ s.error_count := by
  by_cases h : s.last_reset_date = today
  · rw [afterReset_eq_self now today s h]
  · rw [afterReset_of_ne now today s h]; simp

theorem canComment_fst_comments_today (L : Limits) (now : ℚ) (today : Nat)
    (s : SafetyState) (pid : String) :
    (canComment L now today s pid).1.comments_today
      = (afterReset now today s).comments_today := by
  simp only [canComment, afterReset_def]
  split_ifs <;> rfl

theorem canComment_not_dailyLimit (L : Limits) (now : ℚ) (today : Nat)
    (s : SafetyState) (pid : String)
    (h : (afterReset now today s).comments_today < L.maxCommentsPerDay) :
    (canComment L now today s pid).2.2 ≠ Reason.dailyLimit := by
  simp only [canComment, afterReset_def]
  split_ifs with hA hB <;> try simp
  omega

theorem initSafetyState_fresh (saved : Option SavedData) (today : Nat) :
    (initSafetyState saved today).hourly_comments = [] ∧
    (initSafetyState saved today).last_comment_time = none ∧
    (initSafetyState saved today).error_count = 0 := by
  cases saved <;> exact ⟨rfl, rfl, rfl⟩


theorem commentOnPostsSafely_raises_step (L : Limits) (base : ℚ)
    (timeAt jitter : Nat → ℚ) (today : Nat) (outcome : String → PostOutcome)
    (i : Nat) (p : String) (rest : List String) (s : SafetyState)
    (r : SessionResults) (tr : List ℚ)
    (h : outcome p = PostOutcome.raisesErr) :
    commentOnPostsSafely L base timeAt jitter today outcome i (p :: rest) s r tr
      = commentOnPostsSafely L base timeAt jitter today outcome (i + 1) rest s
          { r with failed_comments := r.failed_comments + 1 } (tr ++ [5]) := by
  simp only [commentOnPostsSafely, h]

theorem commentOnPostsSafely_all_raises (L : Limits) (base : ℚ)
    (timeAt jitter : Nat → ℚ) (today : Nat) (outcome : String → PostOutcome)
    (posts : List String)
    (hall : ∀ p ∈ posts, outcome p = PostOutcome.raisesErr) :
    ∀ (i : Nat) (s : SafetyState) (r : SessionResults) (tr : List ℚ),
      commentOnPostsSafely L base timeAt jitter today outcome i posts s r tr
        = (s, { r with failed_comments := r.failed_comments + posts.length },
            tr ++ List.replicate posts.length 5) := by
  induction posts with
  | nil =>
    intro i s r tr
    cases r
    simp [commentOnPostsSafely]
  | cons p rest ih =>
    intro i s r tr
    rw [commentOnPostsSafely_raises_step L base timeAt jitter today outcome
      i p rest s r tr (hall p (by simp))]
    rw [ih (fun q hq => hall q (by simp [hq])) (i + 1) s _ _]
    cases r
    simp [List.replicate_succ, List.append_assoc]
    omega

/-! ## Claims -/

/-- C2: `record_comment` on success increments `comments_today`, adds the
post id to the dedup set, appends `now` to the hourly window, sets the last
comment instant and clears the error counter; on failure it only increments
the error counter; in both cases the resulting state is persisted. Over any
run of successful calls `comments_today` grows by exactly the number of
calls, and each id occurs at most once in the dedup set. -/
theorem C2_record_comment :
    (∀ (now : ℚ) (postId : String) (s : SafetyState),
        recordComment now postId true s =
          ({ s with
              comments_today := s.comments_today + 1,
              commented_posts := insert postId s.commented_posts,
              hourly_comments := s.hourly_comments ++ [now],
              last_comment_time := some now,
              error_count := 0 },
            saveSafetyData now
              { s with
                comments_today := s.comments_today + 1,
                commented_posts := insert postId s.commented_posts,
                hourly_comments := s.hourly_comments ++ [now],
                last_comment_time := some now,
                error_count := 0 })) ∧
    (∀ (now : ℚ) (postId : String) (s : SafetyState),
        recordComment now postId false s =
          ({ s with error_count := s.error_count + 1 },
            saveSafetyData now { s with error_count := s.error_count + 1 })) ∧
    (∀ (s : SafetyState) (calls : List (String × ℚ)),
        (recordSuccessRun s calls).comments_today
          = s.comments_today + calls.length) ∧
    (∀ (s : SafetyState) (calls : List (String × ℚ)) (postId : String),
        (recordSuccessRun s calls).commented_posts.val.count postId ≤ 1) := by
  refine ⟨fun _ _ _ => rfl, fun _ _ _ => rfl, fun s calls => ?_, fun s calls postId => ?_⟩
  · exact recordSuccessRun_comments_today calls s
  · exact Multiset.nodup_iff_count_le_one.mp
      ((recordSuccessRun s calls).commented_posts.nodup) postId

/-- C3: the source computes the delay multiplier with `if recent > 5` before
`elif recent > 8`, so a trailing-hour volume of 9 gets multiplier 1.5 while
the specified behaviour (highest threshold first) gives 2.0; with base delay
10 and jitter 1 the code recommends 15 where the specification demands 20. -/
theorem C3_delay_multiplier_dead_branch :
    delayMultiplier 9 = 3/2 ∧
    specDelayMultiplier 9 = 2 ∧
    getRecommendedDelay 10 1
        ⟨0, 0, ∅, 0, [0, 0, 0, 0, 0, 0, 0, 0, 0], none⟩ = 15 ∧
    10 * specDelayMultiplier 9 * 1 = 20 := by
  norm_num [delayMultiplier, specDelayMultiplier, getRecommendedDelay]

/-- C5: a lowercased message containing a fatal substring gets no-retry with
no delay; otherwise an attempt number within the 5-entry backoff table
sleeps the table entry and retries, and one past the table gets no-retry;
"Account Suspended: contact support" is fatal and "connection timeout"
transient. -/
theorem C5_handle_error :
    (∀ (msg : String) (attempt : Nat), isCriticalError msg = true →
        handleError msg attempt = (false, none)) ∧
    (∀ (msg : String) (attempt : Nat), isCriticalError msg = false →
        1 ≤ attempt → attempt ≤ 5 →
        handleError msg attempt = (true, some (retryDelays.getD (attempt - 1) 0))) ∧
    (∀ (msg : String) (attempt : Nat), isCriticalError msg = false →
        5 < attempt → handleError msg attempt = (false, none)) ∧
    isCriticalError "Account Suspended: contact support" = true ∧
    isCriticalError "connection timeout" = false := by
  refine ⟨fun msg attempt h => ?_, fun msg attempt h h1 h5 => ?_,
    fun msg attempt h h5 => ?_, by decide, by decide⟩
  · simp [handleError, h]
  · have hl : attempt ≤ retryDelays.length := by simp [retryDelays]; omega
    simp [handleError, h, hl]
  · have hl : ¬ attempt ≤ retryDelays.length := by simp [retryDelays]; omega
    simp [handleError, h, hl]

/-- Witness for C5 at concrete inputs: the transient message
"connection timeout" on attempt 1 sleeps 5 seconds and retries, and the
fatal message is refused with no delay already on attempt 2. -/
theorem C5_handle_error_witness :
    handleError "connection timeout" 1 = (true, some 5) ∧
    handleError "Account Suspended: contact support" 2 = (false, none) := by
  constructor
  · have h := C5_handle_error.2.1 "connection timeout" 1 (by decide)
      (by decide) (by decide)
    simpa [retryDelays] using h
  · exact C5_handle_error.1 "Account Suspended: contact support" 2 (by decide)

/-- C9: when the single attempt returns an unsuccessful result without
raising, `_attempt_comment_with_retry` returns that result after exactly one
attempt with the error handler never consulted, and in every case at most 3
attempts are made. -/
theorem C9_retry_wrapper :
    (∀ (f : Nat → AttemptResult) (b : Bool), f 1 = .returns b →
        attemptCommentWithRetry f = (b, 1, [])) ∧
    (∀ f : Nat → AttemptResult, (attemptCommentWithRetry f).2.1 ≤ 3) := by
  constructor
  · intro f b h
    simp [attemptCommentWithRetry, attemptLoop, h]
  · intro f
    exact attemptLoop_attempts_le f 3 1

/-- Witness for C9: a first attempt that reports failure without raising
ends the wrapper at once with failure, an empty handler trace, and one
attempt made. -/
theorem C9_retry_wrapper_witness :
    attemptCommentWithRetry (fun _ => AttemptResult.returns false)
      = (false, 1, []) :=
  C9_retry_wrapper.1 (fun _ => AttemptResult.returns false) false rfl

/-- C1: `can_comment` evaluates its checks in the fixed order dedup set,
daily limit (≥ 50), pruned hourly count (≥ 10), spacing since the last
comment (< 30 s), consecutive errors (≥ 5); the first failing check fixes
the returned reason, and a post id already in the dedup set is denied
ALREADY_DONE regardless of every other counter. -/
theorem C1_can_comment_order (now : ℚ) (today : Nat) (s : SafetyState)
    (pid : String) :
    (pid ∈ s.commented_posts →
        canComment defaultLimits now today s pid
          = (afterReset now today s, false, .alreadyDone)) ∧
    (pid ∉ s.commented_posts →
        50 ≤ (afterReset now today s).comments_today →
        canComment defaultLimits now today s pid
          = (afterReset now today s, false, .dailyLimit)) ∧
    (pid ∉ s.commented_posts →
        (afterReset now today s).comments_today < 50 →
        10 ≤ prunedHourlyCount now s →
        canComment defaultLimits now today s pid
          = (cleanupHourly now (afterReset now today s), false, .hourlyLimit)) ∧
    (∀ t : ℚ, pid ∉ s.commented_posts →
        (afterReset now today s).comments_today < 50 →
        prunedHourlyCount now s < 10 →
        s.last_comment_time = some t → now - t < 30 →
        canComment defaultLimits now today s pid
          = (cleanupHourly now (afterReset now today s), false, .tooSoon)) ∧
    (pid ∉ s.commented_posts →
        (afterReset now today s).comments_today < 50 →
        prunedHourlyCount now s < 10 →
        (∀ t : ℚ, s.last_comment_time = some t → 30 ≤ now - t) →
        5 ≤ (afterReset now today s).error_count →
        canComment defaultLimits now today s pid
          = (cleanupHourly now (afterReset now today s), false, .tooManyErrors)) ∧
    (pid ∉ s.commented_posts →
        (afterReset now today s).comments_today < 50 →
        prunedHourlyCount now s < 10 →
        (∀ t : ℚ, s.last_comment_time = some t → 30 ≤ now - t) →
        (afterReset now today s).error_count < 5 →
        canComment defaultLimits now today s pid
          = (cleanupHourly now (afterReset now today s), true, .safe)) := by
  have hmem : pid ∈ s.commented_posts →
      pid ∈ (afterReset now today s).commented_posts := by
    intro h; rw [afterReset_commented_posts]; exact h
  have hnmem : pid ∉ s.commented_posts →
      pid ∉ (afterReset now today s).commented_posts := by
    intro h hc; rw [afterReset_commented_posts] at hc; exact h hc
  exact ⟨fun h => canComment_alreadyDone _ _ _ _ _ (hmem h),
    fun h h2 => canComment_dailyLimit _ _ _ _ _ (hnmem h) h2,
    fun h h2 h3 => canComment_hourlyLimit _ _ _ _ _ (hnmem h) h2 h3,
    fun t h h2 h3 ht h4 => canComment_tooSoon _ _ _ _ _ t (hnmem h) h2 h3 ht h4,
    fun h h2 h3 hts h5 => canComment_tooManyErrors _ _ _ _ _ (hnmem h) h2 h3 hts h5,
    fun h h2 h3 hts h5 => canComment_safe _ _ _ _ _ (hnmem h) h2 h3 hts h5⟩

/-- Witness for C1: a post id already in the dedup set is denied
ALREADY_DONE even with the daily counter at 49 and 4 consecutive errors,
and with every counter clear a fresh post id is allowed. -/
theorem C1_can_comment_order_witness :
    canComment defaultLimits 0 7 ⟨49, 7, {"x"}, 4, [], none⟩ "x"
      = (afterReset 0 7 ⟨49, 7, {"x"}, 4, [], none⟩, false, .alreadyDone) ∧
    canComment defaultLimits 0 7 ⟨0, 7, ∅, 0, [], none⟩ "y"
      = (cleanupHourly 0 (afterReset 0 7 ⟨0, 7, ∅, 0, [], none⟩), true, .safe) := by
  constructor
  · exact (C1_can_comment_order 0 7 ⟨49, 7, {"x"}, 4, [], none⟩ "x").1 (by decide)
  · exact (C1_can_comment_order 0 7 ⟨0, 7, ∅, 0, [], none⟩ "y").2.2.2.2.2
      (by decide) (by decide) (by decide)
      (fun t ht => Option.noConfusion ht) (by decide)


/-- C6 counterexample: at check time 3600 the single timestamp 0 is exactly
3600 seconds old — not older than 3600 seconds — yet the cleanup removes it,
so cleanup does not remove exactly the timestamps older than 3600 seconds. -/
theorem C6_cleanup_boundary_counterexample :
    (cleanupHourly 3600 ⟨0, 0, ∅, 0, [0], none⟩).hourly_comments = [] ∧
    ¬ ((3600 : ℚ) - 0 > 3600) := by
  constructor
  · simp only [cleanupHourly, List.filter]
    norm_num
  · norm_num

/-- C6 (amended): cleanup keeps exactly the timestamps aged strictly less
than 3600 seconds at the check time (so it removes those aged 3600 seconds
or more); the hourly-limit verdict of `can_comment` fires exactly when the
pruned count reaches the cap, i.e. the check always counts the pruned
window; and 10 timestamps inserted at t0 = 0 count 0 at t0 + 3601, where
the check passes. -/
theorem C6_cleanup_window :
    (∀ (now : ℚ) (s : SafetyState) (t : ℚ),
        t ∈ (cleanupHourly now s).hourly_comments ↔
          t ∈ s.hourly_comments ∧ now - t < 3600) ∧
    (∀ (L : Limits) (now : ℚ) (today : Nat) (s : SafetyState) (pid : String),
        (canComment L now today s pid).2.2 = Reason.hourlyLimit ↔
          pid ∉ (afterReset now today s).commented_posts ∧
          (afterReset now today s).comments_today < L.maxCommentsPerDay ∧
          L.maxCommentsPerHour ≤ prunedHourlyCount now s) ∧
    prunedHourlyCount 3601
        ⟨10, 0, ∅, 0, [0, 0, 0, 0, 0, 0, 0, 0, 0, 0], none⟩ = 0 ∧
    (canComment defaultLimits 3601 0
        ⟨0, 0, ∅, 0, [0, 0, 0, 0, 0, 0, 0, 0, 0, 0], none⟩ "p").2
      = (true, Reason.safe) := by
  refine ⟨?_, ?_, ?_, ?_⟩
  · intro now s t
    simp only [cleanupHourly, List.mem_filter, decide_eq_true_eq]
    constructor
    · rintro ⟨hm, hlt⟩; exact ⟨hm, by linarith⟩
    · rintro ⟨hm, hlt⟩; exact ⟨hm, by linarith⟩
  · intro L now today s pid
    by_cases h1 : pid ∈ (afterReset now today s).commented_posts
    · rw [canComment_alreadyDone L now today s pid h1]
      simp [h1]
    · by_cases h2 : L.maxCommentsPerDay ≤ (afterReset now today s).comments_today
      · rw [canComment_dailyLimit L now today s pid h1 h2]
        simp [h1, Nat.not_lt.mpr h2]
      · have h2' := Nat.not_le.mp h2
        by_cases h3 : L.maxCommentsPerHour ≤ prunedHourlyCount now s
        · rw [canComment_hourlyLimit L now today s pid h1 h2' h3]
          simp [h1, h2', h3]
        · have h3' := Nat.not_le.mp h3
          rcases hmt : s.last_comment_time with _ | t
          · have hts : ∀ u : ℚ, s.last_comment_time = some u →
                L.minDelayBetweenComments ≤ now - u := by
              intro u hu; rw [hmt] at hu; exact Option.noConfusion hu
            by_cases h5 : L.maxConsecutiveErrors ≤ (afterReset now today s).error_count
            · rw [canComment_tooManyErrors L now today s pid h1 h2' h3' hts h5]
              simp [h3]
            · rw [canComment_safe L now today s pid h1 h2' h3' hts (Nat.not_le.mp h5)]
              simp [h3]
          · by_cases h4 : now - t < L.minDelayBetweenComments
            · rw [canComment_tooSoon L now today s pid t h1 h2' h3' hmt h4]
              simp [h3]
            · have hts : ∀ u : ℚ, s.last_comment_time = some u →
                  L.minDelayBetweenComments ≤ now - u := by
                intro u hu
                rw [hmt] at hu
                cases hu
                exact not_lt.mp h4
              by_cases h5 : L.maxConsecutiveErrors ≤ (afterReset now today s).error_count
              · rw [canComment_tooManyErrors L now today s pid h1 h2' h3' hts h5]
                simp [h3]
              · rw [canComment_safe L now today s pid h1 h2' h3' hts (Nat.not_le.mp h5)]
                simp [h3]
  · simp only [prunedHourlyCount, cleanupHourly, List.filter]
    norm_num
  · rw [canComment_safe defaultLimits 3601 0
      ⟨0, 0, ∅, 0, [0, 0, 0, 0, 0, 0, 0, 0, 0, 0], none⟩ "p" (by decide) (by decide)
      (by simp only [prunedHourlyCount, cleanupHourly, List.filter]
          norm_num [defaultLimits])
      (fun t ht => Option.noConfusion ht) (by decide)]


/-- C7: the daily reset zeroes `comments_today` and the error counter and
updates `last_reset_date` exactly when the date changed, persisting then and
only then; a second call on the same date is a no-op; at the daily limit any
unseen post id is denied DAILY_LIMIT while the date is unchanged; and the
first check after a date change runs with the daily counter reset to 0, so
it no longer denies DAILY_LIMIT. -/
theorem C7_daily_reset (now : ℚ) (today : Nat) (s : SafetyState) :
    (s.last_reset_date ≠ today →
        resetDailyCountersIfNeeded now today s =
          ({ s with comments_today := 0, last_reset_date := today, error_count := 0 },
            some (saveSafetyData now
              { s with comments_today := 0, last_reset_date := today, error_count := 0 }))) ∧
    (s.last_reset_date = today →
        resetDailyCountersIfNeeded now today s = (s, none)) ∧
    resetDailyCountersIfNeeded now today (afterReset now today s)
      = (afterReset now today s, none) ∧
    (∀ pid : String, 50 ≤ s.comments_today → s.last_reset_date = today →
        pid ∉ s.commented_posts →
        (canComment defaultLimits now today s pid).2 = (false, .dailyLimit)) ∧
    (∀ (today2 : Nat) (pid : String), s.last_reset_date ≠ today2 →
        (canComment defaultLimits now today2 s pid).1.comments_today = 0 ∧
        (canComment defaultLimits now today2 s pid).2.2 ≠ .dailyLimit) := by
  refine ⟨fun h => ?_, fun h => ?_, ?_, fun pid hc hd hm => ?_,
    fun today2 pid h => ⟨?_, ?_⟩⟩
  · simp [resetDailyCountersIfNeeded, h]
  · simp [resetDailyCountersIfNeeded, h]
  · simp [resetDailyCountersIfNeeded, afterReset_last_reset_date]
  · rw [canComment_dailyLimit defaultLimits now today s pid
      (by rw [afterReset_commented_posts]; exact hm)
      (by rw [afterReset_eq_self now today s hd]; exact hc)]
  · rw [canComment_fst_comments_today, afterReset_of_ne now today2 s h]
  · exact canComment_not_dailyLimit defaultLimits now today2 s pid
      (by rw [afterReset_of_ne now today2 s h]; simp [defaultLimits])

/-- Witness for C7: a state dated day 0 with 7 daily comments and 3 errors
is reset and persisted when checked on day 1, and a state at the daily
limit of 50 on the current day denies a fresh post id with DAILY_LIMIT. -/
theorem C7_daily_reset_witness :
    resetDailyCountersIfNeeded 5 1 ⟨7, 0, ∅, 3, [], none⟩
      = (⟨0, 1, ∅, 0, [], none⟩, some (saveSafetyData 5 ⟨0, 1, ∅, 0, [], none⟩)) ∧
    (canComment defaultLimits 0 0 ⟨50, 0, ∅, 0, [], none⟩ "p").2
      = (false, .dailyLimit) := by
  constructor
  · exact (C7_daily_reset 5 1 ⟨7, 0, ∅, 3, [], none⟩).1 (by decide)
  · exact (C7_daily_reset 0 0 ⟨50, 0, ∅, 0, [], none⟩).2.2.2.1 "p"
      (by decide) (by decide) (by decide)

/-- C10 counterexample: the persisted record contains a fourth, clock-derived
field, so two saves of the same state at different instants differ — the
record does not consist of only `comments_today`, `last_reset_date` and the
dedup set. -/
theorem C10_persisted_record_counterexample :
    saveSafetyData 0 (freshState 0) ≠ saveSafetyData 1 (freshState 0) := by
  intro h
  have h2 : (0 : ℚ) = 1 := congrArg SavedData.last_updated h
  norm_num at h2

/-- C10 (amended): the persisted record consists of `comments_today`,
`last_reset_date`, the dedup set and a `last_updated` wall-clock timestamp;
a manager initialised from any saved record (or none) starts with an empty
hourly window, no last-comment instant, and zero consecutive errors, so
right after a restart `can_comment` can never deny for the hourly limit,
the minimum interval, or too many errors. -/
theorem C10_fresh_start :
    (∀ (now : ℚ) (s : SafetyState),
        saveSafetyData now s =
          ⟨s.comments_today, s.last_reset_date, s.commented_posts, now⟩) ∧
    (∀ (saved : Option SavedData) (today : Nat),
        (initSafetyState saved today).hourly_comments = [] ∧
        (initSafetyState saved today).last_comment_time = none ∧
        (initSafetyState saved today).error_count = 0) ∧
    (∀ (saved : Option SavedData) (today today2 : Nat) (now : ℚ) (pid : String),
        (canComment defaultLimits now today2 (initSafetyState saved today) pid).2.2
            ≠ .hourlyLimit ∧
        (canComment defaultLimits now today2 (initSafetyState saved today) pid).2.2
            ≠ .tooSoon ∧
        (canComment defaultLimits now today2 (initSafetyState saved today) pid).2.2
            ≠ .tooManyErrors) := by
  refine ⟨fun _ _ => rfl, initSafetyState_fresh, ?_⟩
  intro saved today today2 now pid
  obtain ⟨he, hl, herr⟩ := initSafetyState_fresh saved today
  have h3 : prunedHourlyCount now (initSafetyState saved today)
      < defaultLimits.maxCommentsPerHour := by
    simp [prunedHourlyCount, cleanupHourly, he, defaultLimits]
  have hts : ∀ t : ℚ, (initSafetyState saved today).last_comment_time = some t →
      defaultLimits.minDelayBetweenComments ≤ now - t := by
    intro t ht; rw [hl] at ht; exact Option.noConfusion ht
  have h5 : (afterReset now today2 (initSafetyState saved today)).error_count
      < defaultLimits.maxConsecutiveErrors := by
    have hle := afterReset_error_count_le now today2 (initSafetyState saved today)
    rw [herr] at hle
    have : defaultLimits.maxConsecutiveErrors = 5 := rfl
    omega
  by_cases h1 : pid ∈ (afterReset now today2 (initSafetyState saved today)).commented_posts
  · rw [canComment_alreadyDone defaultLimits now today2 _ pid h1]
    exact ⟨by simp, by simp, by simp⟩
  · by_cases h2 : defaultLimits.maxCommentsPerDay
        ≤ (afterReset now today2 (initSafetyState saved today)).comments_today
    · rw [canComment_dailyLimit defaultLimits now today2 _ pid h1 h2]
      exact ⟨by simp, by simp, by simp⟩
    · rw [canComment_safe defaultLimits now today2 _ pid h1 (Nat.not_le.mp h2) h3 hts h5]
      exact ⟨by simp, by simp, by simp⟩


/-- C8: a post whose processing raises an unexpected fault is caught at the
per-post boundary: it is counted failed, a fixed 5-second cool-down is
slept, and the loop continues with the remaining posts; in particular when
every post raises, all of them are processed, each counted failed with one
5-second cool-down, and the session never aborts. -/
theorem C8_per_post_fault_containment :
    (∀ (L : Limits) (base : ℚ) (timeAt jitter : Nat → ℚ) (today : Nat)
        (outcome : String → PostOutcome) (i : Nat) (p : String)
        (rest : List String) (s : SafetyState) (r : SessionResults)
        (tr : List ℚ),
        outcome p = PostOutcome.raisesErr →
        commentOnPostsSafely L base timeAt jitter today outcome i (p :: rest) s r tr
          = commentOnPostsSafely L base timeAt jitter today outcome (i + 1) rest s
              { r with failed_comments := r.failed_comments + 1 } (tr ++ [5])) ∧
    (∀ (L : Limits) (base : ℚ) (timeAt jitter : Nat → ℚ) (today : Nat)
        (outcome : String → PostOutcome) (posts : List String),
        (∀ p ∈ posts, outcome p = PostOutcome.raisesErr) →
        ∀ (i : Nat) (s : SafetyState) (r : SessionResults) (tr : List ℚ),
        commentOnPostsSafely L base timeAt jitter today outcome i posts s r tr
          = (s, { r with failed_comments := r.failed_comments + posts.length },
              tr ++ List.replicate posts.length 5)) :=
  ⟨fun L base timeAt jitter today outcome i p rest s r tr h =>
      commentOnPostsSafely_raises_step L base timeAt jitter today outcome
        i p rest s r tr h,
    fun L base timeAt jitter today outcome posts hall =>
      commentOnPostsSafely_all_raises L base timeAt jitter today outcome
        posts hall⟩

/-- Witness for C8: with both posts of a two-post session raising, the
session processes both, counts 2 failures and two 5-second cool-downs,
leaves the safety state untouched and does not abort. -/
theorem C8_per_post_fault_containment_witness :
    commentOnPostsSafely defaultLimits 30 (fun _ => 0) (fun _ => 1) 0
        (fun _ => PostOutcome.raisesErr) 0 ["a", "b"] (freshState 0)
        ⟨2, 0, 0, 0, 0⟩ []
      = (freshState 0, ⟨2, 0, 2, 0, 0⟩, [5, 5]) := by
  have h := C8_per_post_fault_containment.2 defaultLimits 30 (fun _ => 0)
    (fun _ => 1) 0 (fun _ => PostOutcome.raisesErr) ["a", "b"]
    (fun p _ => rfl) 0 (freshState 0) ⟨2, 0, 0, 0, 0⟩ []
  simpa using h

/-- C4 counterexample: with the daily limit 2 and fresh counters, p1, p2, p3
all succeeding, the loop takes a safety stop right after the second success,
so p3 is never denied and the skipped count ends at 0, not 1 as claimed. -/
theorem C4_scenario_counterexample :
    (runCommentSession ⟨2, 10, 5, 30⟩ 40 (fun i => 100 * (i : ℚ)) (fun _ => 1) 0
        (fun _ => PostOutcome.succeeds) ["p1", "p2", "p3"]
        (freshState 0)).2.1.skipped_posts = 0 := by
  norm_num +decide [runCommentSession, commentOnPostsSafely, canComment,
    resetDailyCountersIfNeeded, cleanupHourly, recordComment, shouldTakeBreak,
    getRecommendedDelay, delayMultiplier, freshState, saveSafetyData]

/-- C4 (amended): in that scenario `comments_today` ends at 2, but the break
check fires at 80% of the daily limit right after the second success, so the
session stops with a safety stop and p3 is never evaluated: the final result
is 2 successful, 0 failed, 0 skipped, 1 safety stop. -/
theorem C4_scenario_amended :
    (runCommentSession ⟨2, 10, 5, 30⟩ 40 (fun i => 100 * (i : ℚ)) (fun _ => 1) 0
        (fun _ => PostOutcome.succeeds) ["p1", "p2", "p3"] (freshState 0)).2.1
      = ⟨3, 2, 0, 0, 1⟩ ∧
    (runCommentSession ⟨2, 10, 5, 30⟩ 40 (fun i => 100 * (i : ℚ)) (fun _ => 1) 0
        (fun _ => PostOutcome.succeeds) ["p1", "p2", "p3"]
        (freshState 0)).1.comments_today = 2 ∧
    "p3" ∉ (runCommentSession ⟨2, 10, 5, 30⟩ 40 (fun i => 100 * (i : ℚ))
        (fun _ => 1) 0 (fun _ => PostOutcome.succeeds) ["p1", "p2", "p3"]
        (freshState 0)).1.commented_posts := by
  refine ⟨?_, ?_, ?_⟩ <;>
    norm_num +decide [runCommentSession, commentOnPostsSafely, canComment,
      resetDailyCountersIfNeeded, cleanupHourly, recordComment, shouldTakeBreak,
      getRecommendedDelay, delayMultiplier, freshState, saveSafetyData]

end JDGrowth
